import Mathlib

/-!
Verification of the progress-reconciliation engine of the
jellyfin-webhook-anilist-scrobbler repository.

The definitions below are a shallow embedding of the decision logic in
`src/lib/scrobbler.ts` (class `AnilistScrobbler`: `createUpdatedEntry`,
the bucket-scanning loop of `scrobble`, the retry loop around
`api.lists.updateEntry`, and the auto-add branch), of
`handleUnwatchedEpisode` (the user-correction path), and of
`JellyfinMiniApi.getProviderFromSeries` in `src/lib/jellyfin/api.ts`.

JavaScript numbers that the code only compares for equality or order are
modelled as `Nat` (episode numbers, progress, media ids) or `Int`
(season numbers, which the guard compares against 1); optional fields
(`entry.id`, `entry.media.episodes`, `error.response?.status`) are
modelled as `Option Nat`.
-/

namespace AnilistWatched

/-- AniList media-list status strings used by `createUpdatedEntry`. -/
inductive EntryStatus where
  | CURRENT
  | COMPLETED
deriving DecidableEq, Repr

/-- The update object built by `createUpdatedEntry`: a status together
with a progress value, sent to AniList as one mutation. -/
structure UpdateEntryOptions where
  status : EntryStatus
  progress : Nat
deriving DecidableEq, Repr

/-- Embedding of `AnilistScrobbler.createUpdatedEntry` (scrobbler.ts
lines 52-66): start from status CURRENT with the given progress, and
overwrite the status with COMPLETED when `maxEpisodes` is truthy
(defined and nonzero) and `episode === maxEpisodes`. -/
def createUpdatedEntry (episode : Nat) (maxEpisodes : Option Nat) : UpdateEntryOptions :=
  match maxEpisodes with
  | some m =>
    if m ≠ 0 ∧ episode = m then
      { status := EntryStatus.COMPLETED, progress := episode }
    else
      { status := EntryStatus.CURRENT, progress := episode }
  | none => { status := EntryStatus.CURRENT, progress := episode }

/-- The `media` object of an AniList list entry: the anime id and the
optional total episode count (`entry.media.episodes`, undefined while a
show is not fully catalogued). -/
structure Media where
  id : Nat
  episodes : Option Nat
deriving DecidableEq, Repr

/-- An AniList list entry as read by the scrobbler: the optional entry
id (`entry.id`), the media object, and the current progress. -/
structure MediaEntry where
  id : Option Nat
  media : Media
  progress : Nat
deriving DecidableEq, Repr

/-- One status bucket of the user's anime list (`list.name` is compared
against the strings "Watching" and "Planning"). -/
structure AnimeList where
  name : String
  entries : List MediaEntry
deriving DecidableEq, Repr

/-- The distinct early-return no-op outcomes of `scrobble`, one per
`return` statement carrying a "skipping" message. -/
inductive NoopReason where
  | unsupportedSeason
  | alreadyAtOrBeyond
  | episodeExceedsKnownMax
  | notFirstEpisodePlanning
  | cannotAutoAddMidSeries
  | showNotTracked
deriving DecidableEq, Repr

/-- The `update` variable prepared by the bucket scan, tagged with the
bucket that produced it (the Watching branch advances progress, the
Planning branch is the Planning-to-Watching transition). -/
inductive Prepared where
  | advance (entryId : Nat) (entry : UpdateEntryOptions)
  | transition (entryId : Nat) (entry : UpdateEntryOptions)
deriving DecidableEq, Repr

/-- The mutation decision computed by `scrobble` before any network
write: a no-op with its reason, an update of an existing entry
(advance from Watching / transition from Planning), or the creation of
a new entry on the auto-add path. -/
inductive Decision where
  | noop (reason : NoopReason)
  | advanceProgress (entryId : Nat) (entry : UpdateEntryOptions)
  | transition (entryId : Nat) (entry : UpdateEntryOptions)
  | createEntry (mediaId : Nat) (entry : UpdateEntryOptions)
deriving DecidableEq, Repr

/-- The inner `for (const entry of list.entries)` scan: skip entries
whose `entry.id` is undefined (`continue`) and entries whose
`entry.media.id` differs from the wanted id, and stop at the first
remaining entry, returning its unwrapped id together with the entry. -/
def findEntry (id : Nat) : List MediaEntry → Option (Nat × MediaEntry)
  | [] => none
  | e :: rest =>
    match e.id with
    | none => findEntry id rest
    | some eid => if e.media.id = id then some (eid, e) else findEntry id rest

/-- Body of the `list.name == "Watching"` branch of `scrobble`
(scrobbler.ts lines 100-130) applied to the first matching entry:
`entry.progress >= episode` returns the "already at or beyond" no-op;
`entry.media.episodes == undefined || entry.media.episodes < episode`
returns the "exceeds max episodes" no-op; otherwise the update prepared
is `createUpdatedEntry(episode, entry.media.episodes)` for `entry.id`.
`none` means no matching entry, so the scan moves on with `update`
unchanged. -/
def watchingStep (id episode : Nat) (entries : List MediaEntry) :
    Option (Sum NoopReason Prepared) :=
  match findEntry id entries with
  | none => none
  | some (eid, e) =>
    if e.progress ≥ episode then
      some (Sum.inl NoopReason.alreadyAtOrBeyond)
    else
      match e.media.episodes with
      | none => some (Sum.inl NoopReason.episodeExceedsKnownMax)
      | some m =>
        if m < episode then
          some (Sum.inl NoopReason.episodeExceedsKnownMax)
        else
          some (Sum.inr (Prepared.advance eid (createUpdatedEntry episode (some m))))

/-- Body of the `list.name == "Planning"` branch of `scrobble`
(scrobbler.ts lines 131-150) applied to the first matching entry:
`episode != 1` returns the "not the first episode" no-op; otherwise the
prepared update is `createUpdatedEntry(episode, entry.media.episodes)`
for `entry.id`. -/
def planningStep (id episode : Nat) (entries : List MediaEntry) :
    Option (Sum NoopReason Prepared) :=
  match findEntry id entries with
  | none => none
  | some (eid, e) =>
    if episode ≠ 1 then
      some (Sum.inl NoopReason.notFirstEpisodePlanning)
    else
      some (Sum.inr (Prepared.transition eid (createUpdatedEntry episode e.media.episodes)))

/-- Dispatch on `list.name`: buckets other than "Watching" and
"Planning" are ignored by the scan. -/
def listStep (id episode : Nat) (l : AnimeList) : Option (Sum NoopReason Prepared) :=
  if l.name = "Watching" then watchingStep id episode l.entries
  else if l.name = "Planning" then planningStep id episode l.entries
  else none

/-- The outer `for (const list of ...)` loop of `scrobble`, threading
the mutable `update` variable: an early-return no-op aborts the scan, a
prepared update replaces the current one and the scan continues over
the remaining buckets. -/
def scanLists (id episode : Nat) :
    List AnimeList → Option Prepared → Sum NoopReason (Option Prepared)
  | [], upd => Sum.inr upd
  | l :: rest, upd =>
    match listStep id episode l with
    | some (Sum.inl r) => Sum.inl r
    | some (Sum.inr p) => scanLists id episode rest (some p)
    | none => scanLists id episode rest upd

/-- The pure mutation decision of `AnilistScrobbler.scrobble`
(scrobbler.ts lines 88-207), with the network effects abstracted away:
the `season != 1` guard, then the bucket scan; a prepared update
becomes the decision; with no prepared update the auto-add branch runs
(`config.anilist.autoAdd`), which refuses any episode other than 1 and
otherwise creates an entry from `createUpdatedEntry(episode, n)` where
`n` is the episode count fetched from `api.media.anime(id)` (modelled
as the extra input `fetchedEpisodes`). -/
def scrobbleDecision (id episode : Nat) (season : Int) (lists : List AnimeList)
    (autoAdd : Bool) (fetchedEpisodes : Option Nat) : Decision :=
  if season ≠ 1 then Decision.noop NoopReason.unsupportedSeason
  else
    match scanLists id episode lists none with
    | Sum.inl r => Decision.noop r
    | Sum.inr (some (Prepared.advance eid entry)) => Decision.advanceProgress eid entry
    | Sum.inr (some (Prepared.transition eid entry)) => Decision.transition eid entry
    | Sum.inr none =>
      if autoAdd then
        if episode ≠ 1 then Decision.noop NoopReason.cannotAutoAddMidSeries
        else Decision.createEntry id (createUpdatedEntry episode fetchedEpisodes)
      else Decision.noop NoopReason.showNotTracked

/-- A partial AniList entry update: each field is sent only when
present. `handleUnwatchedEpisode` sends `\x7b progress: 0 \x7d`, a patch
with no status field, which is why the status bucket is untouched. -/
structure ProgressPatch where
  status : Option EntryStatus
  progress : Option Nat
deriving DecidableEq, Repr

/-- Outcome of the user-correction path `handleUnwatchedEpisode`: the
season guard's no-op, a progress reset on a found entry, or the
"not found in any list" no-op. -/
inductive UnwatchedDecision where
  | unsupportedSeason
  | resetProgress (entryId : Nat) (patch : ProgressPatch)
  | notFound
deriving DecidableEq, Repr

/-- JavaScript truthiness of the optional numeric `entry.id` as tested
by `handleUnwatchedEpisode`: defined and nonzero. -/
def truthyId : Option Nat → Bool
  | some n => n ≠ 0
  | none => false

/-- The inner entry scan of `handleUnwatchedEpisode` (part_004 lines
789-807): the first entry with `entry.media.id == id && entry.id`
(truthy id: defined and nonzero) is the reset target. -/
def findResetTarget (id : Nat) : List MediaEntry → Option Nat
  | [] => none
  | e :: rest =>
    match e.id with
    | some eid =>
      if e.media.id = id ∧ eid ≠ 0 then some eid else findResetTarget id rest
    | none => findResetTarget id rest

/-- The outer scan of `handleUnwatchedEpisode` over every status
bucket, in order, taking the first reset target found in any bucket. -/
def findResetTargetInLists (id : Nat) : List AnimeList → Option Nat
  | [] => none
  | l :: rest =>
    match findResetTarget id l.entries with
    | some eid => some eid
    | none => findResetTargetInLists id rest

/-- The pure decision of `AnilistScrobbler.handleUnwatchedEpisode`
(part_004 lines 767-822): the `season != 1` guard, then a scan of all
buckets; a found entry is patched with `\x7b progress: 0 \x7d` (no
status field), otherwise the result is the "not found" no-op. -/
def handleUnwatchedDecision (id : Nat) (season : Int) (lists : List AnimeList) :
    UnwatchedDecision :=
  if season ≠ 1 then UnwatchedDecision.unsupportedSeason
  else
    match findResetTargetInLists id lists with
    | some eid =>
      UnwatchedDecision.resetProgress eid { status := none, progress := some 0 }
    | none => UnwatchedDecision.notFound

/-- Errors thrown by an attempted AniList write, as classified by the
retry loop of `scrobble`: an axios error carrying
`error.response?.status` (possibly undefined), or any non-axios
error. -/
inductive ApiError where
  | axios (status : Option Nat)
  | other
deriving DecidableEq, Repr

/-- The retry condition of the `catch` block in `scrobble` (lines
161-169): an attempt is retried only when the error is an axios error
whose response status is exactly 500 (and attempts remain). -/
def isRetryableError : ApiError → Bool
  | ApiError.axios (some s) => s == 500
  | _ => false

/-- The `for (let attempt = 1; attempt <= maxAttempts; attempt++)` loop
of `scrobble` (lines 154-176), with the upstream modelled as an oracle
`resp` giving each attempt's outcome. `remaining` counts the attempts
still allowed after the current one (`maxAttempts - attempt`). A
success breaks out; a retryable error with attempts remaining moves to
the next attempt; any other error is rethrown at once. The returned
`Nat` is the index of the last attempt made, which is the total number
of upstream calls. -/
def updateLoop {α : Type} (resp : Nat → Sum ApiError α) :
    Nat → Nat → Sum ApiError α × Nat
  | attempt, remaining =>
    match resp attempt with
    | Sum.inr v => (Sum.inr v, attempt)
    | Sum.inl e =>
      match remaining with
      | 0 => (Sum.inl e, attempt)
      | r + 1 =>
        if isRetryableError e then updateLoop resp (attempt + 1) r
        else (Sum.inl e, attempt)

/-- The mutation applier of `scrobble` with `maxAttempts = 3`: start at
attempt 1 with 2 further attempts allowed. -/
def applyUpdateWithRetry {α : Type} (resp : Nat → Sum ApiError α) :
    Sum ApiError α × Nat :=
  updateLoop resp 1 2

/-- One item of a Jellyfin `/Items` result as consumed by
`getProviderFromSeries`: its `ProviderIds` map, modelled as an
association list in `Object.keys` order. -/
structure SeriesItem where
  ProviderIds : List (String × String)
deriving DecidableEq, Repr

/-- The part of a Jellyfin `/Items` response that
`getProviderFromSeries` reads: `TotalRecordCount` and the items. -/
structure SeriesItemResult where
  TotalRecordCount : Nat
  Items : List SeriesItem
deriving DecidableEq, Repr

/-- Model of `String.prototype.toLowerCase` used on the provider keys:
per-character lowercasing (the same function as Lean's
`String.toLower`, restated through the character list so that it
computes by `decide`). -/
def toLowerStr (s : String) : String :=
  String.mk (s.data.map Char.toLower)

/-- The `for (const provider of Object.keys(...))` loop of
`getProviderFromSeries`: the first key equal to the requested provider
name after lowercasing both sides yields its provider id. -/
def findProviderKey (providerName : String) : List (String × String) → Option String
  | [] => none
  | kv :: rest =>
    if toLowerStr kv.fst = toLowerStr providerName then some kv.snd
    else findProviderKey providerName rest

/-- Embedding of `JellyfinMiniApi.getProviderFromSeries` (api.ts lines
111-128), given the already-fetched query result: undefined when
`TotalRecordCount != 1`, otherwise the case-insensitive provider lookup
over `Items[0].ProviderIds`. The declared response type guarantees one
item; an empty `Items` is mapped to `none`. -/
def getProviderFromSeries (res : SeriesItemResult) (providerName : String) :
    Option String :=
  if res.TotalRecordCount ≠ 1 then none
  else
    match res.Items with
    | [] => none
    | item :: _ => findProviderKey providerName item.ProviderIds

/-! ## General lemmas about the bucket scan -/

theorem scanLists_cons_inl (id episode : Nat) (l : AnimeList) (rest : List AnimeList)
    (upd : Option Prepared) (r : NoopReason)
    (h : listStep id episode l = some (Sum.inl r)) :
    scanLists id episode (l :: rest) upd = Sum.inl r := by
  simp [scanLists, h]

theorem scanLists_cons_inr (id episode : Nat) (l : AnimeList) (rest : List AnimeList)
    (upd : Option Prepared) (p : Prepared)
    (h : listStep id episode l = some (Sum.inr p)) :
    scanLists id episode (l :: rest) upd = scanLists id episode rest (some p) := by
  simp [scanLists, h]

theorem scanLists_cons_none (id episode : Nat) (l : AnimeList) (rest : List AnimeList)
    (upd : Option Prepared)
    (h : listStep id episode l = none) :
    scanLists id episode (l :: rest) upd = scanLists id episode rest upd := by
  simp [scanLists, h]

theorem scanLists_all_inert (id episode : Nat) (ls : List AnimeList)
    (h : ∀ l ∈ ls, listStep id episode l = none) (upd : Option Prepared) :
    scanLists id episode ls upd = Sum.inr upd := by
  induction ls with
  | nil => rfl
  | cons l rest ih =>
    rw [scanLists_cons_none id episode l rest upd (h l (by simp))]
    exact ih (fun x hx => h x (by simp [hx]))

theorem scanLists_append_inert (id episode : Nat) (pre : List AnimeList)
    (h : ∀ l ∈ pre, listStep id episode l = none) (rest : List AnimeList)
    (upd : Option Prepared) :
    scanLists id episode (pre ++ rest) upd = scanLists id episode rest upd := by
  induction pre with
  | nil => rfl
  | cons l pre ih =>
    rw [List.cons_append,
      scanLists_cons_none id episode l (pre ++ rest) upd (h l (by simp))]
    exact ih (fun x hx => h x (by simp [hx]))

theorem scanLists_inl_of_step_inl (id episode : Nat) (l0 : AnimeList)
    (r0 : NoopReason) (post : List AnimeList)
    (h : listStep id episode l0 = some (Sum.inl r0)) :
    ∀ (pre : List AnimeList) (upd : Option Prepared),
      ∃ r, scanLists id episode (pre ++ l0 :: post) upd = Sum.inl r := by
  intro pre
  induction pre with
  | nil =>
    intro upd
    exact ⟨r0, scanLists_cons_inl id episode l0 post upd r0 h⟩
  | cons l pre ih =>
    intro upd
    rcases hs : listStep id episode l with _ | s
    · rw [List.cons_append, scanLists_cons_none id episode l _ upd hs]
      exact ih upd
    · rcases s with r | p
      · exact ⟨r, by rw [List.cons_append]; exact scanLists_cons_inl id episode l _ upd r hs⟩
      · rw [List.cons_append, scanLists_cons_inr id episode l _ upd p hs]
        exact ih (some p)

/-! ## Lemmas about the Watching and Planning branch bodies -/

theorem listStep_watching (id episode : Nat) (w : List MediaEntry) :
    listStep id episode (AnimeList.mk "Watching" w) = watchingStep id episode w := by
  simp [listStep]

theorem listStep_planning (id episode : Nat) (p : List MediaEntry) :
    listStep id episode (AnimeList.mk "Planning" p) = planningStep id episode p := by
  simp [listStep]

theorem watchingStep_already (id episode : Nat) (w : List MediaEntry)
    (eid : Nat) (e : MediaEntry)
    (hfind : findEntry id w = some (eid, e)) (hprog : episode ≤ e.progress) :
    watchingStep id episode w = some (Sum.inl NoopReason.alreadyAtOrBeyond) := by
  simp [watchingStep, hfind, hprog]

theorem watchingStep_exceeds_none (id episode : Nat) (w : List MediaEntry)
    (eid : Nat) (e : MediaEntry)
    (hfind : findEntry id w = some (eid, e)) (hprog : e.progress < episode)
    (hmax : e.media.episodes = none) :
    watchingStep id episode w = some (Sum.inl NoopReason.episodeExceedsKnownMax) := by
  simp [watchingStep, hfind, hmax, Nat.not_le.mpr hprog]

theorem watchingStep_exceeds_lt (id episode : Nat) (w : List MediaEntry)
    (eid : Nat) (e : MediaEntry) (m : Nat)
    (hfind : findEntry id w = some (eid, e)) (hprog : e.progress < episode)
    (hmax : e.media.episodes = some m) (hlt : m < episode) :
    watchingStep id episode w = some (Sum.inl NoopReason.episodeExceedsKnownMax) := by
  simp [watchingStep, hfind, hmax, Nat.not_le.mpr hprog, hlt]

theorem watchingStep_advances (id episode : Nat) (w : List MediaEntry)
    (eid : Nat) (e : MediaEntry) (m : Nat)
    (hfind : findEntry id w = some (eid, e)) (hprog : e.progress < episode)
    (hmax : e.media.episodes = some m) (hle : episode ≤ m) :
    watchingStep id episode w =
      some (Sum.inr (Prepared.advance eid (createUpdatedEntry episode (some m)))) := by
  simp [watchingStep, hfind, hmax, Nat.not_le.mpr hprog, Nat.not_lt.mpr hle]

theorem planningStep_not_first (id episode : Nat) (p : List MediaEntry)
    (eid : Nat) (e : MediaEntry)
    (hfind : findEntry id p = some (eid, e)) (hep : episode ≠ 1) :
    planningStep id episode p = some (Sum.inl NoopReason.notFirstEpisodePlanning) := by
  simp [planningStep, hfind, hep]

theorem planningStep_promotes (id : Nat) (p : List MediaEntry)
    (eid : Nat) (e : MediaEntry)
    (hfind : findEntry id p = some (eid, e)) :
    planningStep id 1 p =
      some (Sum.inr (Prepared.transition eid (createUpdatedEntry 1 e.media.episodes))) := by
  simp [planningStep, hfind]

/-! ## Lemmas about the decision assembly -/

theorem scrobbleDecision_season_ne (id episode : Nat) (season : Int)
    (lists : List AnimeList) (autoAdd : Bool) (fetchedEpisodes : Option Nat)
    (h : season ≠ 1) :
    scrobbleDecision id episode season lists autoAdd fetchedEpisodes =
      Decision.noop NoopReason.unsupportedSeason := by
  simp [scrobbleDecision, h]

theorem scrobbleDecision_of_scan_inl (id episode : Nat)
    (lists : List AnimeList) (autoAdd : Bool) (fetchedEpisodes : Option Nat)
    (r : NoopReason) (h : scanLists id episode lists none = Sum.inl r) :
    scrobbleDecision id episode 1 lists autoAdd fetchedEpisodes = Decision.noop r := by
  simp [scrobbleDecision, h]

theorem scrobbleDecision_of_scan_advance (id episode : Nat)
    (lists : List AnimeList) (autoAdd : Bool) (fetchedEpisodes : Option Nat)
    (eid : Nat) (u : UpdateEntryOptions)
    (h : scanLists id episode lists none = Sum.inr (some (Prepared.advance eid u))) :
    scrobbleDecision id episode 1 lists autoAdd fetchedEpisodes =
      Decision.advanceProgress eid u := by
  simp [scrobbleDecision, h]

theorem scrobbleDecision_of_scan_transition (id episode : Nat)
    (lists : List AnimeList) (autoAdd : Bool) (fetchedEpisodes : Option Nat)
    (eid : Nat) (u : UpdateEntryOptions)
    (h : scanLists id episode lists none = Sum.inr (some (Prepared.transition eid u))) :
    scrobbleDecision id episode 1 lists autoAdd fetchedEpisodes =
      Decision.transition eid u := by
  simp [scrobbleDecision, h]

/-! ## Claim C7: season guard -/

/-- Claim C7: for every input with seasonNumber different from 1, the
reconciliation decision is the unsupported-season no-op, regardless of
episode number, snapshot contents and policy flags. -/
theorem season_guard_rejects_everything (id episode : Nat) (season : Int)
    (lists : List AnimeList) (autoAdd : Bool) (fetchedEpisodes : Option Nat)
    (h : season ≠ 1) :
    scrobbleDecision id episode season lists autoAdd fetchedEpisodes =
      Decision.noop NoopReason.unsupportedSeason :=
  scrobbleDecision_season_ne id episode season lists autoAdd fetchedEpisodes h

/-- Witness for C7 at season 2 with a nonempty snapshot. -/
theorem season_guard_rejects_everything_witness :
    scrobbleDecision 7 3 2
        [AnimeList.mk "Watching" [MediaEntry.mk (some 11) (Media.mk 7 (some 12)) 1]]
        true (some 12) =
      Decision.noop NoopReason.unsupportedSeason :=
  season_guard_rejects_everything 7 3 2
    [AnimeList.mk "Watching" [MediaEntry.mk (some 11) (Media.mk 7 (some 12)) 1]]
    true (some 12) (by decide)

/-! ## Claim C3: monotonicity of the forward path -/

/-- Claim C3: whenever the first matching Watching entry has
currentProgress at least the event's episodeNumber, the decision is a
no-op — in full generality some no-op (whatever bucket or guard fires
first), and exactly the "already at or beyond this progress" no-op once
season is 1 and no bucket before the Watching one acts. Progress never
regresses or repeats through the forward path. -/
theorem forward_progress_monotone (id episode : Nat) (season : Int)
    (pre post : List AnimeList) (w : List MediaEntry)
    (eid : Nat) (e : MediaEntry) (autoAdd : Bool) (fetchedEpisodes : Option Nat)
    (hfind : findEntry id w = some (eid, e))
    (hprog : episode ≤ e.progress) :
    (∃ r, scrobbleDecision id episode season
        (pre ++ AnimeList.mk "Watching" w :: post) autoAdd fetchedEpisodes =
        Decision.noop r) ∧
    (season = 1 → (∀ l ∈ pre, listStep id episode l = none) →
      scrobbleDecision id episode season
          (pre ++ AnimeList.mk "Watching" w :: post) autoAdd fetchedEpisodes =
        Decision.noop NoopReason.alreadyAtOrBeyond) := by
  have hstep : listStep id episode (AnimeList.mk "Watching" w) =
      some (Sum.inl NoopReason.alreadyAtOrBeyond) := by
    rw [listStep_watching]
    exact watchingStep_already id episode w eid e hfind hprog
  constructor
  · by_cases hs : season = 1
    · subst hs
      obtain ⟨r, hr⟩ :=
        scanLists_inl_of_step_inl id episode _ _ post hstep pre none
      exact ⟨r, scrobbleDecision_of_scan_inl id episode _ autoAdd fetchedEpisodes r hr⟩
    · exact ⟨NoopReason.unsupportedSeason,
        scrobbleDecision_season_ne id episode season _ autoAdd fetchedEpisodes hs⟩
  · intro hs hpre
    subst hs
    have hscan : scanLists id episode
        (pre ++ AnimeList.mk "Watching" w :: post) none =
        Sum.inl NoopReason.alreadyAtOrBeyond := by
      rw [scanLists_append_inert id episode pre hpre]
      exact scanLists_cons_inl id episode _ post none _ hstep
    exact scrobbleDecision_of_scan_inl id episode _ autoAdd fetchedEpisodes _ hscan

/-- Witness for C3: Scenario C of the spec — Watching entry with
progress 5, event episode 3. -/
theorem forward_progress_monotone_witness :
    scrobbleDecision 7 3 1
        ([] ++ AnimeList.mk "Watching" [MediaEntry.mk (some 11) (Media.mk 7 (some 12)) 5] :: [])
        false none =
      Decision.noop NoopReason.alreadyAtOrBeyond :=
  (forward_progress_monotone 7 3 1 [] []
      [MediaEntry.mk (some 11) (Media.mk 7 (some 12)) 5]
      11 (MediaEntry.mk (some 11) (Media.mk 7 (some 12)) 5)
      false none (by decide) (by decide)).2 rfl (by simp)

/-! ## Claim C1: behaviour of the Watching path when maxEpisodes is unknown -/

/-- Counterexample to claim C1 as stated: a Watching entry for show 7
with currentProgress 0 and unknown maxEpisodes, forward event for
episode 1 — the claim says the decision is AdvanceProgress, but the
code takes the `entry.media.episodes == undefined` disjunct of the
guard and returns the "episode exceeds known max" no-op. -/
theorem watching_unknown_max_counterexample :
    scrobbleDecision 7 1 1
        [AnimeList.mk "Watching" [MediaEntry.mk (some 11) (Media.mk 7 none) 0]]
        false none =
      Decision.noop NoopReason.episodeExceedsKnownMax := by
  decide

/-- Claim C1 (amended): on the Watching path with
currentProgress < episodeNumber, the "episode exceeds known max" no-op
is produced when maxEpisodes is unknown as well as when it is known and
strictly less than episodeNumber; AdvanceProgress is produced exactly
when maxEpisodes is known and at least episodeNumber. -/
theorem watching_max_episode_guard (id episode : Nat) (season : Int)
    (pre post : List AnimeList) (w : List MediaEntry)
    (eid : Nat) (e : MediaEntry) (autoAdd : Bool) (fetchedEpisodes : Option Nat)
    (hseason : season = 1)
    (hpre : ∀ l ∈ pre, listStep id episode l = none)
    (hpost : ∀ l ∈ post, listStep id episode l = none)
    (hfind : findEntry id w = some (eid, e))
    (hprog : e.progress < episode) :
    (e.media.episodes = none →
      scrobbleDecision id episode season
          (pre ++ AnimeList.mk "Watching" w :: post) autoAdd fetchedEpisodes =
        Decision.noop NoopReason.episodeExceedsKnownMax) ∧
    (∀ m, e.media.episodes = some m → m < episode →
      scrobbleDecision id episode season
          (pre ++ AnimeList.mk "Watching" w :: post) autoAdd fetchedEpisodes =
        Decision.noop NoopReason.episodeExceedsKnownMax) ∧
    (∀ m, e.media.episodes = some m → episode ≤ m →
      scrobbleDecision id episode season
          (pre ++ AnimeList.mk "Watching" w :: post) autoAdd fetchedEpisodes =
        Decision.advanceProgress eid (createUpdatedEntry episode (some m))) := by
  subst hseason
  refine ⟨?_, ?_, ?_⟩
  · intro hmax
    have hstep := watchingStep_exceeds_none id episode w eid e hfind hprog hmax
    have hscan : scanLists id episode
        (pre ++ AnimeList.mk "Watching" w :: post) none =
        Sum.inl NoopReason.episodeExceedsKnownMax := by
      rw [scanLists_append_inert id episode pre hpre]
      exact scanLists_cons_inl id episode _ post none _
        ((listStep_watching id episode w).trans hstep)
    exact scrobbleDecision_of_scan_inl id episode _ autoAdd fetchedEpisodes _ hscan
  · intro m hmax hlt
    have hstep := watchingStep_exceeds_lt id episode w eid e m hfind hprog hmax hlt
    have hscan : scanLists id episode
        (pre ++ AnimeList.mk "Watching" w :: post) none =
        Sum.inl NoopReason.episodeExceedsKnownMax := by
      rw [scanLists_append_inert id episode pre hpre]
      exact scanLists_cons_inl id episode _ post none _
        ((listStep_watching id episode w).trans hstep)
    exact scrobbleDecision_of_scan_inl id episode _ autoAdd fetchedEpisodes _ hscan
  · intro m hmax hle
    have hstep := watchingStep_advances id episode w eid e m hfind hprog hmax hle
    have hscan : scanLists id episode
        (pre ++ AnimeList.mk "Watching" w :: post) none =
        Sum.inr (some (Prepared.advance eid (createUpdatedEntry episode (some m)))) := by
      rw [scanLists_append_inert id episode pre hpre,
        scanLists_cons_inr id episode _ post none _
          ((listStep_watching id episode w).trans hstep)]
      exact scanLists_all_inert id episode post hpost _
    exact scrobbleDecision_of_scan_advance id episode _ autoAdd fetchedEpisodes _ _ hscan

/-- Witness for the amended C1: Scenario A of the spec — Watching entry
with progress 3 and maxEpisodes 12, event episode 4 advances. -/
theorem watching_max_episode_guard_witness :
    scrobbleDecision 7 4 1
        ([] ++ AnimeList.mk "Watching" [MediaEntry.mk (some 11) (Media.mk 7 (some 12)) 3] :: [])
        false none =
      Decision.advanceProgress 11 (createUpdatedEntry 4 (some 12)) :=
  (watching_max_episode_guard 7 4 1 [] []
      [MediaEntry.mk (some 11) (Media.mk 7 (some 12)) 3]
      11 (MediaEntry.mk (some 11) (Media.mk 7 (some 12)) 3)
      false none rfl (by simp) (by simp) (by decide) (by decide)).2.2
    12 rfl (by decide)

/-! ## Claim C4: completion tie-break on the Watching path -/

/-- Claim C4: on the Watching path, when the event's episodeNumber
equals the entry's known maxEpisodes, the decision is AdvanceProgress
carrying status COMPLETED (never CURRENT), with the status change and
the progress update inside the one prepared mutation object. -/
theorem watching_completion_tie_break (id episode : Nat) (season : Int)
    (pre post : List AnimeList) (w : List MediaEntry)
    (eid : Nat) (e : MediaEntry) (autoAdd : Bool) (fetchedEpisodes : Option Nat)
    (hseason : season = 1)
    (hpre : ∀ l ∈ pre, listStep id episode l = none)
    (hpost : ∀ l ∈ post, listStep id episode l = none)
    (hfind : findEntry id w = some (eid, e))
    (hprog : e.progress < episode)
    (hmax : e.media.episodes = some episode) :
    scrobbleDecision id episode season
        (pre ++ AnimeList.mk "Watching" w :: post) autoAdd fetchedEpisodes =
      Decision.advanceProgress eid
        { status := EntryStatus.COMPLETED, progress := episode } := by
  subst hseason
  have hpos : episode ≠ 0 := by omega
  have hstep := watchingStep_advances id episode w eid e episode hfind hprog hmax
    (Nat.le_refl episode)
  have hscan : scanLists id episode
      (pre ++ AnimeList.mk "Watching" w :: post) none =
      Sum.inr (some (Prepared.advance eid (createUpdatedEntry episode (some episode)))) := by
    rw [scanLists_append_inert id episode pre hpre,
      scanLists_cons_inr id episode _ post none _
        ((listStep_watching id episode w).trans hstep)]
    exact scanLists_all_inert id episode post hpost _
  have hdec := scrobbleDecision_of_scan_advance id episode _ autoAdd fetchedEpisodes _ _ hscan
  rw [hdec, createUpdatedEntry]
  simp [hpos]

/-- Witness for C4: Scenario B of the spec — Watching entry with
progress 11 and maxEpisodes 12, event episode 12 completes. -/
theorem watching_completion_tie_break_witness :
    scrobbleDecision 7 12 1
        ([] ++ AnimeList.mk "Watching" [MediaEntry.mk (some 11) (Media.mk 7 (some 12)) 11] :: [])
        false none =
      Decision.advanceProgress 11 { status := EntryStatus.COMPLETED, progress := 12 } :=
  watching_completion_tie_break 7 12 1 [] []
    [MediaEntry.mk (some 11) (Media.mk 7 (some 12)) 11]
    11 (MediaEntry.mk (some 11) (Media.mk 7 (some 12)) 11)
    false none rfl (by simp) (by simp) (by decide) (by decide) rfl

/-! ## Claim C8: Planning promotion only on the first episode -/

/-- Claim C8: a Planning entry matching the event's show is promoted —
a Transition decision carrying progress 1 — only when episodeNumber is
1; any other episodeNumber produces the "not first episode" no-op. -/
theorem planning_promotion_first_episode_only (id episode : Nat) (season : Int)
    (pre post : List AnimeList) (p : List MediaEntry)
    (eid : Nat) (e : MediaEntry) (autoAdd : Bool) (fetchedEpisodes : Option Nat)
    (hseason : season = 1)
    (hpre : ∀ l ∈ pre, listStep id episode l = none)
    (hfind : findEntry id p = some (eid, e)) :
    (episode ≠ 1 →
      scrobbleDecision id episode season
          (pre ++ AnimeList.mk "Planning" p :: post) autoAdd fetchedEpisodes =
        Decision.noop NoopReason.notFirstEpisodePlanning) ∧
    (episode = 1 → (∀ l ∈ post, listStep id episode l = none) →
      scrobbleDecision id episode season
          (pre ++ AnimeList.mk "Planning" p :: post) autoAdd fetchedEpisodes =
        Decision.transition eid (createUpdatedEntry 1 e.media.episodes) ∧
      (createUpdatedEntry 1 e.media.episodes).progress = 1) := by
  subst hseason
  constructor
  · intro hep
    have hstep := planningStep_not_first id episode p eid e hfind hep
    have hscan : scanLists id episode
        (pre ++ AnimeList.mk "Planning" p :: post) none =
        Sum.inl NoopReason.notFirstEpisodePlanning := by
      rw [scanLists_append_inert id episode pre hpre]
      exact scanLists_cons_inl id episode _ post none _
        ((listStep_planning id episode p).trans hstep)
    exact scrobbleDecision_of_scan_inl id episode _ autoAdd fetchedEpisodes _ hscan
  · intro hep hpost
    subst hep
    have hstep := planningStep_promotes id p eid e hfind
    have hscan : scanLists id 1
        (pre ++ AnimeList.mk "Planning" p :: post) none =
        Sum.inr (some (Prepared.transition eid (createUpdatedEntry 1 e.media.episodes))) := by
      rw [scanLists_append_inert id 1 pre hpre,
        scanLists_cons_inr id 1 _ post none _
          ((listStep_planning id 1 p).trans hstep)]
      exact scanLists_all_inert id 1 post hpost _
    refine ⟨scrobbleDecision_of_scan_transition id 1 _ autoAdd fetchedEpisodes _ _ hscan, ?_⟩
    rcases e.media.episodes with _ | m <;> simp [createUpdatedEntry]
    by_cases hm : m = 0
    · simp [hm]
    · by_cases h1 : 1 = m <;> simp [hm, h1]

/-- Witness for C8: Scenario E of the spec — Planning entry, event
episode 5 produces the "not first episode" no-op. -/
theorem planning_promotion_first_episode_only_witness :
    scrobbleDecision 7 5 1
        ([] ++ AnimeList.mk "Planning" [MediaEntry.mk (some 11) (Media.mk 7 (some 12)) 0] :: [])
        true none =
      Decision.noop NoopReason.notFirstEpisodePlanning :=
  (planning_promotion_first_episode_only 7 5 1 [] []
      [MediaEntry.mk (some 11) (Media.mk 7 (some 12)) 0]
      11 (MediaEntry.mk (some 11) (Media.mk 7 (some 12)) 0)
      true none rfl (by simp) (by decide)).1 (by decide)

/-! ## Claim C10: a later Planning match overrides a prepared Watching update -/

/-- Claim C10: the bucket scan keeps going after a Watching match has
prepared an update; when the same show also matches a Planning entry in
a later bucket and episodeNumber is not 1, the Planning branch's early
return wins and the final decision is the "not first episode" no-op, so
the update prepared from the Watching entry is discarded unapplied. -/
theorem planning_match_overrides_watching_update (id episode : Nat) (season : Int)
    (pre mid post : List AnimeList) (w p : List MediaEntry)
    (eidW eidP : Nat) (eW eP : MediaEntry) (mW : Nat)
    (autoAdd : Bool) (fetchedEpisodes : Option Nat)
    (hseason : season = 1)
    (hpre : ∀ l ∈ pre, listStep id episode l = none)
    (hmid : ∀ l ∈ mid, listStep id episode l = none)
    (hfindW : findEntry id w = some (eidW, eW))
    (hprogW : eW.progress < episode)
    (hmaxW : eW.media.episodes = some mW)
    (hleW : episode ≤ mW)
    (hfindP : findEntry id p = some (eidP, eP))
    (hep : episode ≠ 1) :
    scrobbleDecision id episode season
        (pre ++ AnimeList.mk "Watching" w ::
          (mid ++ AnimeList.mk "Planning" p :: post)) autoAdd fetchedEpisodes =
      Decision.noop NoopReason.notFirstEpisodePlanning := by
  subst hseason
  have hstepW := watchingStep_advances id episode w eidW eW mW hfindW hprogW hmaxW hleW
  have hstepP := planningStep_not_first id episode p eidP eP hfindP hep
  have hscan : scanLists id episode
      (pre ++ AnimeList.mk "Watching" w ::
        (mid ++ AnimeList.mk "Planning" p :: post)) none =
      Sum.inl NoopReason.notFirstEpisodePlanning := by
    rw [scanLists_append_inert id episode pre hpre,
      scanLists_cons_inr id episode _ _ none _
        ((listStep_watching id episode w).trans hstepW),
      scanLists_append_inert id episode mid hmid]
    exact scanLists_cons_inl id episode _ post _ _
      ((listStep_planning id episode p).trans hstepP)
  exact scrobbleDecision_of_scan_inl id episode _ autoAdd fetchedEpisodes _ hscan

/-- Witness for C10: show 7 in Watching (progress 1, max 12) and in
Planning, event episode 3 — the Planning no-op wins. -/
theorem planning_match_overrides_watching_update_witness :
    scrobbleDecision 7 3 1
        ([] ++ AnimeList.mk "Watching" [MediaEntry.mk (some 11) (Media.mk 7 (some 12)) 1] ::
          ([] ++ AnimeList.mk "Planning" [MediaEntry.mk (some 22) (Media.mk 7 (some 12)) 0] :: []))
        false none =
      Decision.noop NoopReason.notFirstEpisodePlanning :=
  planning_match_overrides_watching_update 7 3 1 [] [] []
    [MediaEntry.mk (some 11) (Media.mk 7 (some 12)) 1]
    [MediaEntry.mk (some 22) (Media.mk 7 (some 12)) 0]
    11 22 (MediaEntry.mk (some 11) (Media.mk 7 (some 12)) 1)
    (MediaEntry.mk (some 22) (Media.mk 7 (some 12)) 0) 12
    false none rfl (by simp) (by simp) (by decide) (by decide) (by decide)
    (by decide) (by decide) (by decide)

/-! ## Claim C5: auto-add gating -/

/-- Claim C5: a CreateEntry decision can only arise with autoAdd
enabled and episodeNumber 1 — with autoAdd disabled no input at all
yields CreateEntry — and on the auto-add path (season 1, no matching
entry found in any bucket) an episodeNumber other than 1 yields the
"cannot auto-add mid-series" no-op instead of creating an entry. -/
theorem auto_add_gating (id episode : Nat) (season : Int)
    (lists : List AnimeList) (autoAdd : Bool) (fetchedEpisodes : Option Nat) :
    (∀ (mid : Nat) (u : UpdateEntryOptions),
      scrobbleDecision id episode season lists autoAdd fetchedEpisodes =
        Decision.createEntry mid u →
      autoAdd = true ∧ episode = 1) ∧
    (autoAdd = true → episode ≠ 1 → season = 1 →
      scanLists id episode lists none = Sum.inr none →
      scrobbleDecision id episode season lists autoAdd fetchedEpisodes =
        Decision.noop NoopReason.cannotAutoAddMidSeries) := by
  constructor
  · intro mid u h
    by_cases hs : season ≠ 1
    · rw [scrobbleDecision_season_ne id episode season lists autoAdd fetchedEpisodes hs] at h
      cases h
    · rw [not_not] at hs
      subst hs
      rcases hscan : scanLists id episode lists none with r | up
      · rw [scrobbleDecision_of_scan_inl id episode lists autoAdd fetchedEpisodes r hscan] at h
        cases h
      · rcases up with _ | pr
        · rw [scrobbleDecision] at h
          simp only [hscan] at h
          rcases hauto : autoAdd with _ | _
          · subst hauto; simp at h
          · subst hauto
            by_cases hep : episode ≠ 1
            · simp [hep] at h
            · rw [not_not] at hep
              exact ⟨rfl, hep⟩
        · rcases pr with ⟨eid, u0⟩ | ⟨eid, u0⟩
          · rw [scrobbleDecision_of_scan_advance id episode lists autoAdd fetchedEpisodes
              eid u0 hscan] at h
            cases h
          · rw [scrobbleDecision_of_scan_transition id episode lists autoAdd fetchedEpisodes
              eid u0 hscan] at h
            cases h
  · intro hauto hep hs hscan
    subst hauto hs
    rw [scrobbleDecision]
    simp only [hscan]
    simp [hep]

/-- Witness for C5: with autoAdd on and an empty snapshot, episode 5 is
refused with the mid-series no-op; applying the first conjunct at the
episode-1 CreateEntry outcome confirms its gate. -/
theorem auto_add_gating_witness :
    scrobbleDecision 7 5 1 [] true none =
        Decision.noop NoopReason.cannotAutoAddMidSeries ∧
      (true = true ∧ (1 : Nat) = 1) :=
  ⟨(auto_add_gating 7 5 1 [] true none).2 rfl (by decide) rfl (by decide),
    (auto_add_gating 7 1 1 [] true none).1 7 (createUpdatedEntry 1 none) (by decide)⟩

/-! ## Claim C2: the correction path resets progress -/

theorem findResetTarget_isSome (id : Nat) (entries : List MediaEntry)
    (e : MediaEntry) (he : e ∈ entries) (hm : e.media.id = id)
    (ht : truthyId e.id = true) :
    ∃ t, findResetTarget id entries = some t := by
  induction entries with
  | nil => cases he
  | cons a rest ih =>
    rcases ha : a.id with _ | aid
    · rcases List.mem_cons.mp he with rfl | hrest
      · rw [ha] at ht; simp [truthyId] at ht
      · simp only [findResetTarget, ha]
        exact ih hrest
    · by_cases hc : a.media.id = id ∧ aid ≠ 0
      · exact ⟨aid, by simp [findResetTarget, ha, hc]⟩
      · rcases List.mem_cons.mp he with rfl | hrest
        · rw [ha] at ht
          simp only [truthyId, decide_eq_true_eq] at ht
          exact absurd ⟨hm, ht⟩ hc
        · simp only [findResetTarget, ha, if_neg hc]
          exact ih hrest

theorem findResetTargetInLists_isSome (id : Nat) (lists : List AnimeList)
    (l : AnimeList) (hl : l ∈ lists) (e : MediaEntry) (he : e ∈ l.entries)
    (hm : e.media.id = id) (ht : truthyId e.id = true) :
    ∃ t, findResetTargetInLists id lists = some t := by
  induction lists with
  | nil => cases hl
  | cons a rest ih =>
    rcases List.mem_cons.mp hl with rfl | hrest
    · obtain ⟨t, hfind⟩ := findResetTarget_isSome id l.entries e he hm ht
      exact ⟨t, by simp [findResetTargetInLists, hfind]⟩
    · rcases hfind : findResetTarget id a.entries with _ | t
      · simp only [findResetTargetInLists, hfind]
        exact ih hrest
      · exact ⟨t, by simp [findResetTargetInLists, hfind]⟩

/-- Counterexample to claim C2 as stated: a correction event for season
2 of a show with a matching Watching entry — the claim says the
decision is ResetProgress, but `handleUnwatchedEpisode` refuses any
season other than 1 before scanning the buckets. -/
theorem correction_season_counterexample :
    handleUnwatchedDecision 7 2
        [AnimeList.mk "Watching" [MediaEntry.mk (some 11) (Media.mk 7 (some 12)) 3]] =
      UnwatchedDecision.unsupportedSeason := by
  decide

/-- Claim C2 (amended): for every correction event with seasonNumber 1
for a show with a matching entry (with a usable entry id) in some
status bucket, the decision is ResetProgress on that entry: the patch
sent sets progress to 0 and carries no status field, leaving the status
bucket unchanged. -/
theorem correction_resets_progress (id : Nat) (lists : List AnimeList)
    (h : ∃ l ∈ lists, ∃ e ∈ l.entries, e.media.id = id ∧ truthyId e.id = true) :
    ∃ eid, handleUnwatchedDecision id 1 lists =
      UnwatchedDecision.resetProgress eid { status := none, progress := some 0 } := by
  obtain ⟨l, hl, e, he, hm, ht⟩ := h
  obtain ⟨t, hfind⟩ := findResetTargetInLists_isSome id lists l hl e he hm ht
  exact ⟨t, by simp [handleUnwatchedDecision, hfind]⟩

/-- Witness for the amended C2: Scenario F of the spec — a correction
event for a show with an existing Watching entry resets progress. -/
theorem correction_resets_progress_witness :
    ∃ eid, handleUnwatchedDecision 7 1
        [AnimeList.mk "Watching" [MediaEntry.mk (some 11) (Media.mk 7 (some 12)) 3]] =
      UnwatchedDecision.resetProgress eid { status := none, progress := some 0 } :=
  correction_resets_progress 7
    [AnimeList.mk "Watching" [MediaEntry.mk (some 11) (Media.mk 7 (some 12)) 3]]
    (by decide)

/-! ## Claim C6: mutation-applier retry policy -/

theorem isRetryableError_eq (e : ApiError) (h : isRetryableError e = true) :
    e = ApiError.axios (some 500) := by
  rcases e with st | _
  · rcases st with _ | s
    · simp [isRetryableError] at h
    · simp only [isRetryableError, Nat.beq_eq_true_eq] at h
      subst h
      rfl
  · simp [isRetryableError] at h

theorem updateLoop_success {α : Type} (resp : Nat → Sum ApiError α)
    (attempt : Nat) (v : α) (hr : resp attempt = Sum.inr v) (remaining : Nat) :
    updateLoop resp attempt remaining = (Sum.inr v, attempt) := by
  conv_lhs => rw [updateLoop]
  simp [hr]

theorem updateLoop_stop_zero {α : Type} (resp : Nat → Sum ApiError α)
    (attempt : Nat) (e : ApiError) (hr : resp attempt = Sum.inl e) :
    updateLoop resp attempt 0 = (Sum.inl e, attempt) := by
  conv_lhs => rw [updateLoop]
  simp [hr]

theorem updateLoop_stop_succ {α : Type} (resp : Nat → Sum ApiError α)
    (attempt r : Nat) (e : ApiError) (hr : resp attempt = Sum.inl e)
    (hret : isRetryableError e = false) :
    updateLoop resp attempt (r + 1) = (Sum.inl e, attempt) := by
  conv_lhs => rw [updateLoop]
  simp [hr, hret]

theorem updateLoop_retries {α : Type} (resp : Nat → Sum ApiError α)
    (attempt r : Nat) (e : ApiError) (hr : resp attempt = Sum.inl e)
    (hret : isRetryableError e = true) :
    updateLoop resp attempt (r + 1) = updateLoop resp (attempt + 1) r := by
  conv_lhs => rw [updateLoop]
  simp [hr, hret]

theorem updateLoop_attempts_le {α : Type} (resp : Nat → Sum ApiError α) :
    ∀ (remaining attempt : Nat),
      (updateLoop resp attempt remaining).2 ≤ attempt + remaining := by
  intro remaining
  induction remaining with
  | zero =>
    intro attempt
    rcases hr : resp attempt with e | v
    · rw [updateLoop_stop_zero resp attempt e hr]
      simp
    · rw [updateLoop_success resp attempt v hr 0]
      simp
  | succ r ih =>
    intro attempt
    rcases hr : resp attempt with e | v
    · rcases hret : isRetryableError e with _ | _
      · rw [updateLoop_stop_succ resp attempt r e hr hret]
        simp
      · rw [updateLoop_retries resp attempt r e hr hret]
        have := ih (attempt + 1)
        omega
    · rw [updateLoop_success resp attempt v hr (r + 1)]
      simp

theorem updateLoop_retried_only_on_500 {α : Type} (resp : Nat → Sum ApiError α) :
    ∀ (remaining attempt k : Nat), attempt ≤ k →
      k < (updateLoop resp attempt remaining).2 →
      resp k = Sum.inl (ApiError.axios (some 500)) := by
  intro remaining
  induction remaining with
  | zero =>
    intro attempt k hak hk
    rcases hr : resp attempt with e | v
    · rw [updateLoop_stop_zero resp attempt e hr] at hk
      exact absurd (Nat.lt_of_lt_of_le hk hak) (Nat.lt_irrefl k)
    · rw [updateLoop_success resp attempt v hr 0] at hk
      exact absurd (Nat.lt_of_lt_of_le hk hak) (Nat.lt_irrefl k)
  | succ r ih =>
    intro attempt k hak hk
    rcases hr : resp attempt with e | v
    · rcases hret : isRetryableError e with _ | _
      · rw [updateLoop_stop_succ resp attempt r e hr hret] at hk
        exact absurd (Nat.lt_of_lt_of_le hk hak) (Nat.lt_irrefl k)
      · rw [updateLoop_retries resp attempt r e hr hret] at hk
        rcases Nat.eq_or_lt_of_le hak with rfl | hlt
        · rw [hr, isRetryableError_eq e hret]
        · exact ih (attempt + 1) k hlt hk
    · rw [updateLoop_success resp attempt v hr (r + 1)] at hk
      exact absurd (Nat.lt_of_lt_of_le hk hak) (Nat.lt_irrefl k)

/-- Claim C6: the mutation applier makes at most 3 upstream attempts in
total; every attempt beyond the first was preceded by an axios error
with response status exactly 500 (the transient server-side class), so
any other error — auth 401, validation 400, not-found 404, and every
non-axios error — is never retried and makes the write fail on the
first attempt. -/
theorem mutation_applier_retry_policy {α : Type} (resp : Nat → Sum ApiError α) :
    (applyUpdateWithRetry resp).2 ≤ 3 ∧
    (∀ k, 1 ≤ k → k < (applyUpdateWithRetry resp).2 →
      resp k = Sum.inl (ApiError.axios (some 500))) ∧
    (∀ e, resp 1 = Sum.inl e → isRetryableError e = false →
      applyUpdateWithRetry resp = (Sum.inl e, 1)) ∧
    (isRetryableError (ApiError.axios (some 401)) = false ∧
      isRetryableError (ApiError.axios (some 400)) = false ∧
      isRetryableError (ApiError.axios (some 404)) = false ∧
      isRetryableError (ApiError.axios none) = false ∧
      isRetryableError ApiError.other = false) := by
  refine ⟨?_, ?_, ?_, by decide⟩
  · exact updateLoop_attempts_le resp 2 1
  · intro k hk1 hk
    exact updateLoop_retried_only_on_500 resp 2 1 k hk1 hk
  · intro e h1 hret
    exact updateLoop_stop_succ resp 1 1 e h1 hret

/-- Witness for C6: an upstream that always answers 404 fails on the
first attempt with no retry. -/
theorem mutation_applier_retry_policy_witness :
    applyUpdateWithRetry (fun _ => (Sum.inl (ApiError.axios (some 404)) : Sum ApiError Nat)) =
      (Sum.inl (ApiError.axios (some 404)), 1) :=
  (mutation_applier_retry_policy
      (fun _ => (Sum.inl (ApiError.axios (some 404)) : Sum ApiError Nat))).2.2.1
    (ApiError.axios (some 404)) rfl (by decide)

/-! ## Claim C9: provider resolution from series metadata -/

theorem findProviderKey_eq_none (name : String) (l : List (String × String)) :
    findProviderKey name l = none ↔
      ∀ kv ∈ l, toLowerStr kv.fst ≠ toLowerStr name := by
  induction l with
  | nil => simp [findProviderKey]
  | cons kv rest ih =>
    by_cases hc : toLowerStr kv.fst = toLowerStr name
    · simp [findProviderKey, hc]
    · simp only [findProviderKey, if_neg hc, List.mem_cons]
      constructor
      · intro h x hx
        rcases hx with rfl | hx
        · exact hc
        · exact (ih.mp h) x hx
      · intro h
        exact ih.mpr (fun x hx => h x (Or.inr hx))

theorem findProviderKey_eq_some (name : String) (l : List (String × String))
    (v : String) (h : findProviderKey name l = some v) :
    ∃ kv ∈ l, toLowerStr kv.fst = toLowerStr name ∧ kv.snd = v := by
  induction l with
  | nil => simp [findProviderKey] at h
  | cons kv rest ih =>
    by_cases hc : toLowerStr kv.fst = toLowerStr name
    · simp only [findProviderKey, if_pos hc, Option.some.injEq] at h
      exact ⟨kv, by simp, hc, h⟩
    · simp only [findProviderKey, if_neg hc] at h
      obtain ⟨x, hx, hxl, hxv⟩ := ih h
      exact ⟨x, by simp [hx], hxl, hxv⟩

/-- Claim C9: `getProviderFromSeries` returns undefined exactly when
the query's record count differs from 1 or no provider key of the
single returned item matches the requested provider name
case-insensitively; otherwise it returns the provider id stored under a
case-insensitively matching key. -/
theorem provider_resolution (res : SeriesItemResult) (name : String)
    (item : SeriesItem) (rest : List SeriesItem)
    (hitems : res.Items = item :: rest) :
    (getProviderFromSeries res name = none ↔
      res.TotalRecordCount ≠ 1 ∨
        ∀ kv ∈ item.ProviderIds, toLowerStr kv.fst ≠ toLowerStr name) ∧
    (∀ v, getProviderFromSeries res name = some v →
      res.TotalRecordCount = 1 ∧
        ∃ kv ∈ item.ProviderIds, toLowerStr kv.fst = toLowerStr name ∧ kv.snd = v) := by
  by_cases hc : res.TotalRecordCount ≠ 1
  · constructor
    · simp [getProviderFromSeries, hc]
    · intro v hv
      simp [getProviderFromSeries, hc] at hv
  · rw [not_not] at hc
    have hdef : getProviderFromSeries res name = findProviderKey name item.ProviderIds := by
      simp [getProviderFromSeries, hc, hitems]
    constructor
    · rw [hdef, findProviderKey_eq_none]
      simp [hc]
    · intro v hv
      rw [hdef] at hv
      exact ⟨hc, findProviderKey_eq_some name item.ProviderIds v hv⟩

/-- Witness for C9: a query result with two records resolves to
undefined through the uniqueness guard. -/
theorem provider_resolution_witness :
    getProviderFromSeries
        (SeriesItemResult.mk 2 [SeriesItem.mk [("AniList", "123")]]) "anilist" = none :=
  (provider_resolution (SeriesItemResult.mk 2 [SeriesItem.mk [("AniList", "123")]])
      "anilist" (SeriesItem.mk [("AniList", "123")]) [] rfl).1.mpr
    (Or.inl (by decide))

end AnilistWatched
